import Mathlib

/-!
Verification of the VR benefit consolidation engine (src/config.py,
class CalculationEngine and class VRAutomation).  The Python code is
shallowly embedded: dates are explicit day/month/year triples, pandas
cells that can be NaN become Option values, Python float arithmetic is
modelled by exact rational arithmetic, and the Python builtin int
(truncation towards zero) is pyInt below.
-/

/-- A calendar date as the engine sees it (datetime day/month/year). -/
structure PyDate where
  day : Nat
  month : Nat
  year : Int
deriving DecidableEq, Repr

/-- The Python builtin int applied to a float: truncation towards zero. -/
def pyInt (q : ℚ) : ℤ := if 0 ≤ q then ⌊q⌋ else ⌈q⌉

/-- The rounding used by the Python builtin round: to the nearest
integer, ties going to the even neighbour. -/
def roundHalfEven (q : ℚ) : ℤ :=
  if q - (⌊q⌋ : ℚ) < 1/2 then ⌊q⌋
  else if 1/2 < q - (⌊q⌋ : ℚ) then ⌊q⌋ + 1
  else if ⌊q⌋ % 2 = 0 then ⌊q⌋ else ⌊q⌋ + 1

/-- Python round(q, 2): round to two decimal places. -/
def pyRound2 (q : ℚ) : ℚ := (roundHalfEven (q * 100) : ℚ) / 100

/-- CalculationEngine.calculate_days_worked (config.py lines 287-316).
Starts from base minus vacation days, then two sequential overrides:
one for an admission inside the competence month, one for a dismissal
inside the competence month; the result is clamped at zero. -/
def calculate_days_worked (base_days vacation_days : ℤ)
    (admission_date dismissal_date : Option PyDate)
    (competence_month : Nat) (competence_year : Int) : ℤ :=
  let d0 : ℤ := base_days - vacation_days
  let d1 : ℤ :=
    match admission_date with
    | some a =>
      if a.month = competence_month ∧ a.year = competence_year then
        pyInt ((base_days : ℚ) * ((30 - (a.day : ℚ) + 1) / 30))
      else d0
    | none => d0
  let d2 : ℤ :=
    match dismissal_date with
    | some d =>
      if d.month = competence_month ∧ d.year = competence_year then
        pyInt ((base_days : ℚ) * ((d.day : ℚ) / 30))
      else d1
    | none => d1
  max 0 d2

/-- Python str.upper, character by character. -/
def upperStr (s : String) : String := String.mk (s.toList.map Char.toUpper)

/-- Substring test: does needle occur contiguously inside hay?
Models the Python operator in on strings. -/
def containsSub (hay needle : String) : Bool :=
  (List.range (hay.toList.length + 1)).any
    (fun i => decide ((hay.toList.drop i).take needle.toList.length = needle.toList))

/-- Lookup in an association list with Python dict semantics: a later
binding of the same key overwrites an earlier one. -/
def dictLookup {α : Type} (l : List (String × α)) (k : String) : Option α :=
  (l.reverse.find? (fun p => decide (p.1 = k))).map Prod.snd

/-- business_days_mapping.get(union, 22) (config.py line 651). -/
def get_business_days (bdMap : List (String × ℤ)) (u : String) : ℤ :=
  (dictLookup bdMap u).getD 22

/-- CalculationEngine.get_daily_value (config.py lines 318-326): the
first state of the mapping that occurs inside the upper-cased union
string gives the rate, otherwise the default 35.0. -/
def get_daily_value (dvMap : List (String × ℚ)) (u : String) : ℚ :=
  match dvMap.find? (fun p => containsSub (upperStr u) p.1) with
  | some p => p.2
  | none => 35

/-- One row of the consolidated working table after enrichment:
the four roster columns plus the merged admission, vacation and
dismissal information (config.py lines 548-617). -/
structure EmployeeRow where
  matricula : String
  cargo : String
  situacao : String
  sindicato : String
  admissao : Option PyDate
  diasFerias : ℤ
  dataDemissao : Option PyDate
  comunicado : Option String
deriving DecidableEq, Repr

/-- The mask of VRAutomation._apply_eligibility_rules (config.py lines
624-628): notice equals OK, the dismissal date is present, and its
day of month is at most 15.  A row matching the mask is dropped. -/
def dismissalIneligible (r : EmployeeRow) : Bool :=
  decide (r.comunicado = some "OK") &&
  (match r.dataDemissao with
   | some d => decide (d.day ≤ 15)
   | none => false)

/-- VRAutomation._apply_eligibility_rules (config.py lines 619-636):
keep exactly the rows the dismissal mask does not match. -/
def apply_eligibility_rules (rows : List EmployeeRow) : List EmployeeRow :=
  rows.filter (fun r => !dismissalIneligible r)

/-- One row of the active roster restricted to its four identifying
columns (config.py lines 548-550). -/
structure AtivoRow where
  matricula : String
  cargo : String
  situacao : String
  sindicato : String
deriving DecidableEq, Repr

/-- One row of the terminations table. -/
structure DesligadoRow where
  matricula : String
  dataDemissao : Option PyDate
  comunicado : Option String
deriving DecidableEq, Repr

/-- The normalized source tables.  A table that is none was absent from
the input folder; cells that can be NaN are Option values. -/
structure Tables where
  ativos : List AtivoRow
  admissao : Option (List (String × Option PyDate))
  ferias : Option (List (String × Option ℤ))
  desligados : Option (List DesligadoRow)
  estag : Option (List String)
  aprendiz : Option (List String)
  afastamentos : Option (List String)
  exterior : Option (List String)
  diasUteis : Option (List (String × Option ℤ))
  sindicatoValor : Option (List (String × Option ℚ))

/-- ExclusionManager.identify_exclusions (config.py lines 184-240):
directors are roster rows whose job title contains DIRETOR after
upper-casing; the other four categories contribute all their ids; a
missing table contributes nothing.  Membership in the returned list is
membership in the exclusion set. -/
def identify_exclusions (t : Tables) : List String :=
  ((t.ativos.filter (fun r => containsSub (upperStr r.cargo) "DIRETOR")).map AtivoRow.matricula)
    ++ t.estag.getD [] ++ t.aprendiz.getD []
    ++ t.afastamentos.getD [] ++ t.exterior.getD []

/-- CalculationEngine._build_business_days_mapping (config.py lines
256-267): one entry per row keyed by the trimmed upper-cased union
name; a NaN day count defaults to 22; an absent table gives the empty
mapping. -/
def build_business_days (t : Tables) : List (String × ℤ) :=
  match t.diasUteis with
  | none => []
  | some l => l.map (fun p => (upperStr p.1.trim, p.2.getD 22))

/-- CalculationEngine._build_daily_values_mapping (config.py lines
269-285): one entry per row keyed by the trimmed upper-cased state; a
row whose value does not parse (none here) is skipped; an absent table
gives the empty mapping. -/
def build_daily_values (t : Tables) : List (String × ℚ) :=
  match t.sindicatoValor with
  | none => []
  | some l => l.filterMap (fun p => p.2.map (fun v => (upperStr p.1.trim, v)))

/-- The pandas left merge of the roster with the admissions table on
MATRICULA (config.py lines 591-593): every base row is kept; a base row
with no match gets a missing admission date; a base row with several
matches is duplicated, one copy per match. -/
def merge_admissao (base : List AtivoRow)
    (adm : Option (List (String × Option PyDate))) :
    List (AtivoRow × Option PyDate) :=
  match adm with
  | none => base.map (fun r => (r, none))
  | some l => base.flatMap (fun r =>
      match l.filter (fun p => decide (p.1 = r.matricula)) with
      | [] => [(r, none)]
      | m :: ms => (m :: ms).map (fun p => (r, p.2)))

/-- VRAutomation._enrich_base_data (config.py lines 588-617): left-join
the admission date, map the vacation days through a dict built from the
vacation table (missing entries become 0), and copy the dismissal date
and notice from the first matching termination row. -/
def enrich_base_data (t : Tables) : List EmployeeRow :=
  (merge_admissao t.ativos t.admissao).map (fun q =>
    { matricula := q.1.matricula
      cargo := q.1.cargo
      situacao := q.1.situacao
      sindicato := q.1.sindicato
      admissao := q.2
      diasFerias :=
        match t.ferias with
        | none => 0
        | some l => (dictLookup (l.map (fun p => (p.1, p.2.getD 0))) q.1.matricula).getD 0
      dataDemissao :=
        match t.desligados with
        | none => none
        | some l =>
          match l.find? (fun d => decide (d.matricula = q.1.matricula)) with
          | some d => d.dataDemissao
          | none => none
      comunicado :=
        match t.desligados with
        | none => none
        | some l =>
          match l.find? (fun d => decide (d.matricula = q.1.matricula)) with
          | some d => d.comunicado
          | none => none })

/-- Formats a date as day/month/year (the source uses strftime with
zero padding, immaterial here). -/
def formatDate (d : PyDate) : String :=
  toString d.day ++ "/" ++ toString d.month ++ "/" ++ toString d.year

/-- VRAutomation._generate_observations (config.py lines 689-703). -/
def generate_observations (vac : ℤ) (adm dis : Option PyDate) : String :=
  String.intercalate "; "
    ((if 0 < vac then ["Ferias: " ++ toString vac ++ " dias"] else [])
      ++ (match adm with | some d => ["Admissao: " ++ formatDate d] | none => [])
      ++ (match dis with | some d => ["Demissao: " ++ formatDate d] | none => []))

/-- One output row of the consolidated base (config.py lines 672-683).
The three fields the required-fields validation inspects are Option
values, a missing cell being none. -/
structure Record where
  matricula : Option String
  admissaoOut : String
  sindicato : Option String
  competencia : Option String
  dias : ℤ
  valorDia : ℚ
  total : ℚ
  custoEmpresa : ℚ
  descontoProf : ℚ
  obsGeral : String
deriving DecidableEq, Repr

/-- Two-digit zero padding of the competence month. -/
def pad2 (n : Nat) : String := if n < 10 then "0" ++ toString n else toString n

/-- The body of the loop of VRAutomation._generate_final_records
(config.py lines 642-685) for one employee row: look up base days and
daily rate, compute worked days, and build the record; the total and
its 80/20 split are each rounded to two decimals from the unrounded
total. -/
def generate_record (bdMap : List (String × ℤ)) (dvMap : List (String × ℚ))
    (m : Nat) (y : Int) (r : EmployeeRow) : Record :=
  let base_days := get_business_days bdMap r.sindicato
  let days := calculate_days_worked base_days r.diasFerias r.admissao r.dataDemissao m y
  let dv := get_daily_value dvMap r.sindicato
  let total := (days : ℚ) * dv
  { matricula := some r.matricula
    admissaoOut := match r.admissao with | some d => formatDate d | none => ""
    sindicato := some r.sindicato
    competencia := some ("01/" ++ pad2 m ++ "/" ++ toString y)
    dias := days
    valorDia := dv
    total := pyRound2 total
    custoEmpresa := pyRound2 (total * 0.8)
    descontoProf := pyRound2 (total * 0.2)
    obsGeral := generate_observations r.diasFerias r.admissao r.dataDemissao }

/-- ProcessingStats (config.py lines 31-40, filled at lines 573-581);
the wall-clock processing time is left out. -/
structure ProcessingStats where
  totalCollaborators : Nat
  totalDays : ℤ
  totalValue : ℚ
  companyCost : ℚ
  professionalDiscount : ℚ
  excludedCount : Nat
deriving Repr

/-- VRAutomation.create_consolidated_base (config.py lines 532-586):
build the two rate mappings, enrich the roster, drop the exclusion-set
rows remembering how many were dropped, apply the eligibility rule,
and generate one record per surviving row together with the stats. -/
def create_consolidated_base (t : Tables) (m : Nat) (y : Int) :
    List Record × ProcessingStats :=
  let bdMap := build_business_days t
  let dvMap := build_daily_values t
  let enriched := enrich_base_data t
  let exclusions := identify_exclusions t
  let afterExcl := enriched.filter (fun r => !decide (r.matricula ∈ exclusions))
  let excludedCount := enriched.length - afterExcl.length
  let eligible := apply_eligibility_rules afterExcl
  let records := eligible.map (generate_record bdMap dvMap m y)
  (records,
   { totalCollaborators := records.length
     totalDays := (records.map Record.dias).sum
     totalValue := (records.map Record.total).sum
     companyCost := (records.map Record.custoEmpresa).sum
     professionalDiscount := (records.map Record.descontoProf).sum
     excludedCount := excludedCount })

/-- Severity levels of the validator (config.py lines 15-19). -/
inductive VLevel where
  | INFO
  | WARNING
  | ERROR
deriving DecidableEq, Repr

/-- ValidationResult (config.py lines 22-28), details field omitted. -/
structure ValidationResult where
  level : VLevel
  message : String
  count : Nat
deriving DecidableEq, Repr

/-- DataValidator._validate_cost_split (config.py lines 400-420):
ERROR when some record has employer cost plus professional discount
further than 0.01 from the total, INFO otherwise. -/
def validate_cost_split (rows : List Record) : ValidationResult :=
  let bad := rows.filter
    (fun r => decide ((1 : ℚ)/100 < |r.custoEmpresa + r.descontoProf - r.total|))
  if 0 < bad.length then
    { level := VLevel.ERROR
      message := "Divergencias no rateio empresa/profissional"
      count := bad.length }
  else
    { level := VLevel.INFO
      message := "Rateio empresa/profissional correto"
      count := 0 }

/-- The number of NaN cells among the three required columns
(config.py lines 468-471); an empty string is not NaN and is not
counted. -/
def required_null_count (rows : List Record) : Nat :=
  rows.countP (fun r => decide (r.matricula = none))
    + rows.countP (fun r => decide (r.sindicato = none))
    + rows.countP (fun r => decide (r.competencia = none))

/-- DataValidator._validate_required_fields (config.py lines 464-485):
WARNING carrying the number of NaN cells when there is one, INFO
otherwise. -/
def validate_required_fields (rows : List Record) : ValidationResult :=
  let missing := required_null_count rows
  if 0 < missing then
    { level := VLevel.WARNING
      message := "Dados obrigatorios ausentes"
      count := missing }
  else
    { level := VLevel.INFO
      message := "Todos os campos obrigatorios preenchidos"
      count := 0 }

/-- DataLoader._validate_essential_files (config.py lines 92-98):
given the names of the sources that loaded, raise (some message) when
any of the three essential sources is missing. -/
def validate_essential_files (loaded : List String) : Option String :=
  let missing := ["ativos", "sindicato_valor", "dias_uteis"].filter
    (fun f => !decide (f ∈ loaded))
  if missing.isEmpty then none
  else some "Arquivos essenciais nao encontrados"

/-- Modelled from the spec wording of claim C1 (not from the code):
the ineligibility condition with the competency month/year test
included.  Compared against dismissalIneligible, which is the
condition the code actually applies. -/
def claimIneligible (r : EmployeeRow) (m : Nat) (y : Int) : Bool :=
  decide (r.comunicado = some "OK") &&
  (match r.dataDemissao with
   | some d => decide (d.month = m) && decide (d.year = y) && decide (d.day ≤ 15)
   | none => false)

/-- Modelled from the spec wording of claim C5 (not from the code):
fatal iff the active roster is absent or both rate-table sources are
absent.  Compared against validate_essential_files. -/
def claimFatal (loaded : List String) : Bool :=
  !decide ("ativos" ∈ loaded) ||
    (!decide ("sindicato_valor" ∈ loaded) && !decide ("dias_uteis" ∈ loaded))

/-- Modelled from the spec wording of claim C8 (not from the code):
the count of required cells that are missing or the empty string.
Compared against required_null_count. -/
def claimMissingEmptyCount (rows : List Record) : Nat :=
  rows.countP (fun r => decide (r.matricula = none) || decide (r.matricula = some ""))
    + rows.countP (fun r => decide (r.sindicato = none) || decide (r.sindicato = some ""))
    + rows.countP (fun r => decide (r.competencia = none) || decide (r.competencia = some ""))

/-- A concrete consolidated row: notice confirmed, dismissed on
10/04/2025, day of month at most 15 but outside the competence month
05/2025. -/
def rowDismissedApril : EmployeeRow :=
  { matricula := "001"
    cargo := "ANALISTA"
    situacao := "Trabalhando"
    sindicato := "SIND SP"
    admissao := none
    diasFerias := 0
    dataDemissao := some ⟨10, 4, 2025⟩
    comunicado := some "OK" }

/-- A concrete consolidated row: present in the terminations table
with notice confirmed but with an unparseable (hence missing)
dismissal date. -/
def rowNullDismissal : EmployeeRow :=
  { matricula := "002"
    cargo := "ANALISTA"
    situacao := "Trabalhando"
    sindicato := "SIND SP"
    admissao := none
    diasFerias := 0
    dataDemissao := none
    comunicado := some "OK" }

/-- A concrete output record whose union cell is the empty string (a
value that pandas isna does not flag). -/
def recordEmptyUnion : Record :=
  { matricula := some "003"
    admissaoOut := ""
    sindicato := some ""
    competencia := some "01/05/2025"
    dias := 22
    valorDia := 35
    total := 770
    custoEmpresa := 616
    descontoProf := 154
    obsGeral := "" }

/-- A concrete input: a one-row roster and every optional table
absent. -/
def sampleTables : Tables :=
  { ativos := [⟨"A1", "ANALISTA", "Trabalhando", "SIND SP"⟩]
    admissao := none
    ferias := none
    desligados := none
    estag := none
    aprendiz := none
    afastamentos := none
    exterior := none
    diasUteis := none
    sindicatoValor := none }

theorem pyInt_eq_floor {q : ℚ} (h : 0 ≤ q) : pyInt q = ⌊q⌋ := if_pos h

theorem dismissalIneligible_iff (r : EmployeeRow) :
    dismissalIneligible r = true ↔
      r.comunicado = some "OK" ∧ ∃ d, r.dataDemissao = some d ∧ d.day ≤ 15 := by
  unfold dismissalIneligible
  cases h : r.dataDemissao with
  | none => simp [h]
  | some d => simp [h]

theorem mem_apply_eligibility (rows : List EmployeeRow) (r : EmployeeRow) :
    r ∈ apply_eligibility_rules rows ↔ r ∈ rows ∧ dismissalIneligible r = false := by
  unfold apply_eligibility_rules
  rw [List.mem_filter]
  simp

/-- Claim C1 (amended): the eligibility decision excludes an employee
from the output iff the termination notice equals OK, the dismissal
date is present, and its day of month is at most 15 — irrespective of
whether the dismissal falls inside the competency month and year. -/
theorem c1_eligibility_no_month_check (rows : List EmployeeRow) (r : EmployeeRow) :
    r ∈ apply_eligibility_rules rows ↔
      r ∈ rows ∧
        ¬(r.comunicado = some "OK" ∧ ∃ d, r.dataDemissao = some d ∧ d.day ≤ 15) := by
  rw [mem_apply_eligibility, ← dismissalIneligible_iff]
  simp

/-- Claim C1, counterexample to the claim as stated: an employee with
a confirmed notice, dismissed on day 10 of April, is dropped by the
code for competence 05/2025 even though the claimed condition (which
requires the dismissal to fall inside the competency month) does not
hold for the employee. -/
theorem c1_counterexample :
    apply_eligibility_rules [rowDismissedApril] = [] ∧
      claimIneligible rowDismissedApril 5 2025 = false := by
  constructor <;> rfl

/-- Claim C10: an employee from the terminations table whose dismissal
date is missing is never marked ineligible, even with a confirmed
notice: the row stays in the output. -/
theorem c10_null_dismissal_date_stays (rows : List EmployeeRow) (r : EmployeeRow)
    (hd : r.dataDemissao = none) (hr : r ∈ rows) :
    r ∈ apply_eligibility_rules rows := by
  rw [mem_apply_eligibility]
  refine ⟨hr, ?_⟩
  unfold dismissalIneligible
  rw [hd]
  simp

/-- Claim C10, witness: the concrete row with confirmed notice and
missing dismissal date survives the eligibility filter. -/
theorem c10_null_dismissal_date_stays_witness :
    rowNullDismissal.dataDemissao = none ∧
      rowNullDismissal ∈ apply_eligibility_rules [rowNullDismissal] :=
  ⟨rfl, c10_null_dismissal_date_stays [rowNullDismissal] rowNullDismissal rfl (by simp)⟩

/-- Claim C5 (amended): the essential-files check raises exactly when
the active roster, the rate-by-region table, or the working-days table
is absent — the absence of a single rate-table source is already
fatal. -/
theorem c5_essential_files_fatal_iff (loaded : List String) :
    (validate_essential_files loaded).isSome = true ↔
      ("ativos" ∉ loaded ∨ "sindicato_valor" ∉ loaded ∨ "dias_uteis" ∉ loaded) := by
  unfold validate_essential_files
  by_cases h1 : "ativos" ∈ loaded <;>
    by_cases h2 : "sindicato_valor" ∈ loaded <;>
      by_cases h3 : "dias_uteis" ∈ loaded <;>
        simp [h1, h2, h3, List.filter]

/-- Claim C5, counterexample to the claim as stated: with the roster
and the working-days table loaded and only the rate-by-region table
absent, the claimed fatal condition does not hold, yet the code
raises. -/
theorem c5_counterexample :
    (validate_essential_files ["ativos", "dias_uteis"]).isSome = true ∧
      claimFatal ["ativos", "dias_uteis"] = false := by
  constructor <;> rfl

/-- Claim C8 (amended): the required-fields check produces a WARNING
exactly when some record has a NaN value in one of the three required
fields, with the count equal to the number of NaN cells; an empty
string is not flagged. -/
theorem c8_required_fields_nan_only (rows : List Record) :
    (validate_required_fields rows).level
        = (if 0 < required_null_count rows then VLevel.WARNING else VLevel.INFO) ∧
      (validate_required_fields rows).count = required_null_count rows := by
  unfold validate_required_fields
  by_cases h : 0 < required_null_count rows
  · simp [h]
  · simp [h]
    omega

/-- Claim C8, counterexample to the claim as stated: a record whose
union is the empty string counts as missing-or-empty for the claim,
yet the code reports INFO because pandas isna does not flag an empty
string. -/
theorem c8_counterexample :
    (validate_required_fields [recordEmptyUnion]).level = VLevel.INFO ∧
      claimMissingEmptyCount [recordEmptyUnion] = 1 := by
  constructor <;> rfl

/-- Claim C6: for an employee whose admission falls inside the
competence month and year and whose dismissal does not, the worked
days equal the floor of base_days * (30 - admission_day + 1) / 30,
irrespective of the vacation days. -/
theorem c6_admission_override (base_days vacation_days : ℤ) (a : PyDate)
    (dis : Option PyDate) (m : Nat) (y : Int)
    (hb : 0 ≤ base_days) (hday : a.day ≤ 31)
    (hm : a.month = m) (hy : a.year = y)
    (hdis : ∀ d, dis = some d → ¬(d.month = m ∧ d.year = y)) :
    calculate_days_worked base_days vacation_days (some a) dis m y
      = ⌊(base_days : ℚ) * ((30 - (a.day : ℚ) + 1) / 30)⌋ := by
  have hq : 0 ≤ (base_days : ℚ) * ((30 - (a.day : ℚ) + 1) / 30) := by
    have hd : (a.day : ℚ) ≤ 31 := by exact_mod_cast hday
    have hb2 : (0 : ℚ) ≤ (base_days : ℚ) := by exact_mod_cast hb
    apply mul_nonneg hb2
    apply div_nonneg _ (by norm_num)
    linarith
  have hfl : (0 : ℤ) ≤ ⌊(base_days : ℚ) * ((30 - (a.day : ℚ) + 1) / 30)⌋ :=
    Int.le_floor.mpr (by exact_mod_cast hq)
  unfold calculate_days_worked
  cases dis with
  | none => simp [hm, hy, pyInt_eq_floor hq, max_eq_right hfl]
  | some d =>
    have hnd := hdis d rfl
    simp only [hnd, if_false]
    simp [hm, hy, pyInt_eq_floor hq, max_eq_right hfl]

/-- Claim C6, witness: base 22, admission on the 16th of the
competence month, no vacation, gives 11 payable days. -/
theorem c6_admission_override_witness :
    calculate_days_worked 22 0 (some ⟨16, 5, 2025⟩) none 5 2025 = 11 := by
  have h := c6_admission_override 22 0 ⟨16, 5, 2025⟩ none 5 2025
    (by norm_num) (by norm_num) rfl rfl (fun d hd => by cases hd)
  rw [h]
  norm_num [Int.floor_eq_iff]

/-- Claim C2 (amended): the two overrides are evaluated sequentially
and the dismissal override is applied last, so for every employee
whose dismissal date falls inside the competence month and year the
worked days equal the floor of base_days * dismissal_day / 30 — even
when the admission date also falls inside the competence month. -/
theorem c2_dismissal_override_wins (base_days vacation_days : ℤ)
    (adm : Option PyDate) (d : PyDate) (m : Nat) (y : Int)
    (hb : 0 ≤ base_days) (hm : d.month = m) (hy : d.year = y) :
    calculate_days_worked base_days vacation_days adm (some d) m y
      = ⌊(base_days : ℚ) * ((d.day : ℚ) / 30)⌋ := by
  have hq : 0 ≤ (base_days : ℚ) * ((d.day : ℚ) / 30) := by
    have hb2 : (0 : ℚ) ≤ (base_days : ℚ) := by exact_mod_cast hb
    apply mul_nonneg hb2
    apply div_nonneg _ (by norm_num)
    exact_mod_cast Nat.zero_le d.day
  have hfl : (0 : ℤ) ≤ ⌊(base_days : ℚ) * ((d.day : ℚ) / 30)⌋ :=
    Int.le_floor.mpr (by exact_mod_cast hq)
  unfold calculate_days_worked
  simp [hm, hy, pyInt_eq_floor hq, max_eq_right hfl]

/-- Claim C2, witness for the amended claim: base 22, admission on the
2nd and dismissal on the 20th of the same competence month, gives
floor(22 * 20 / 30) = 14 payable days. -/
theorem c2_dismissal_override_wins_witness :
    calculate_days_worked 22 0 (some ⟨2, 5, 2025⟩) (some ⟨20, 5, 2025⟩) 5 2025 = 14 := by
  have h := c2_dismissal_override_wins 22 0 (some ⟨2, 5, 2025⟩) ⟨20, 5, 2025⟩ 5 2025
    (by norm_num) rfl rfl
  rw [h]
  norm_num [Int.floor_eq_iff]

/-- Claim C2, counterexample to the claim as stated: with admission on
the 2nd and dismissal on the 20th of the competence month the code
gives 14 days, while the claimed admission-precedence formula
floor(22 * (30 - 2 + 1) / 30) gives 21. -/
theorem c2_counterexample :
    calculate_days_worked 22 0 (some ⟨2, 5, 2025⟩) (some ⟨20, 5, 2025⟩) 5 2025 = 14 ∧
      ⌊(22 : ℚ) * ((30 - (2 : ℚ) + 1) / 30)⌋ = 21 := by
  constructor
  · norm_num [calculate_days_worked, pyInt]
  · norm_num [Int.floor_eq_iff]

/-- Claim C7: a working-days lookup for a union absent from the
mapping returns 22, and a daily-rate lookup for a union whose
upper-cased form contains no state of the mapping returns 35. -/
theorem c7_default_lookups (bdMap : List (String × ℤ)) (dvMap : List (String × ℚ))
    (u : String)
    (hbd : ∀ p ∈ bdMap, p.1 ≠ u)
    (hdv : ∀ p ∈ dvMap, containsSub (upperStr u) p.1 = false) :
    get_business_days bdMap u = 22 ∧ get_daily_value dvMap u = 35 := by
  constructor
  · unfold get_business_days dictLookup
    rw [List.find?_eq_none.mpr]
    · rfl
    · intro p hp
      simp only [decide_eq_true_eq]
      exact hbd p (List.mem_reverse.mp hp)
  · unfold get_daily_value
    rw [List.find?_eq_none.mpr]
    intro p hp
    simp [hdv p hp]

/-- Claim C7, witness: concrete mappings where the union name neither
is a working-days key nor contains a state. -/
theorem c7_default_lookups_witness :
    get_business_days [("SIND A", 20)] "SIND B" = 22 ∧
      get_daily_value [("SAO PAULO", 37)] "SIND B" = 35 :=
  c7_default_lookups [("SIND A", 20)] [("SAO PAULO", 37)] "SIND B"
    (by decide) (by decide)

theorem roundHalfEven_sub_abs (q : ℚ) : |(roundHalfEven q : ℚ) - q| ≤ 1/2 := by
  have h0 : (⌊q⌋ : ℚ) ≤ q := Int.floor_le q
  have h1 : q < (⌊q⌋ : ℚ) + 1 := Int.lt_floor_add_one q
  unfold roundHalfEven
  split_ifs with ha hb hc
  · rw [abs_le]
    constructor <;> linarith
  · rw [abs_le]
    push_cast
    constructor <;> linarith
  · rw [abs_le]
    have hx : q - (⌊q⌋ : ℚ) = 1/2 := by linarith
    constructor <;> linarith
  · rw [abs_le]
    push_cast
    have hx : q - (⌊q⌋ : ℚ) = 1/2 := by linarith
    constructor <;> linarith

theorem round_split_bound (t : ℚ) :
    |pyRound2 (t * 0.8) + pyRound2 (t * 0.2) - pyRound2 t| ≤ 1/100 := by
  have hA := roundHalfEven_sub_abs (t * 0.8 * 100)
  have hB := roundHalfEven_sub_abs (t * 0.2 * 100)
  have hC := roundHalfEven_sub_abs (t * 100)
  rw [abs_le] at hA hB hC
  have hsum : |((roundHalfEven (t * 0.8 * 100) + roundHalfEven (t * 0.2 * 100)
      - roundHalfEven (t * 100) : ℤ) : ℚ)| ≤ 3/2 := by
    rw [abs_le]
    push_cast
    constructor <;> linarith [hA.1, hA.2, hB.1, hB.2, hC.1, hC.2]
  have hint : |roundHalfEven (t * 0.8 * 100) + roundHalfEven (t * 0.2 * 100)
      - roundHalfEven (t * 100)| ≤ 1 := by
    have h2 : |((roundHalfEven (t * 0.8 * 100) + roundHalfEven (t * 0.2 * 100)
        - roundHalfEven (t * 100) : ℤ) : ℚ)| < 2 := lt_of_le_of_lt hsum (by norm_num)
    rw [← Int.cast_abs] at h2
    have h3 : |roundHalfEven (t * 0.8 * 100) + roundHalfEven (t * 0.2 * 100)
        - roundHalfEven (t * 100)| < 2 := by exact_mod_cast h2
    omega
  have hXa : |((roundHalfEven (t * 0.8 * 100) + roundHalfEven (t * 0.2 * 100)
      - roundHalfEven (t * 100) : ℤ) : ℚ)| ≤ 1 := by
    rw [← Int.cast_abs]
    exact_mod_cast hint
  have heq : pyRound2 (t * 0.8) + pyRound2 (t * 0.2) - pyRound2 t
      = ((roundHalfEven (t * 0.8 * 100) + roundHalfEven (t * 0.2 * 100)
          - roundHalfEven (t * 100) : ℤ) : ℚ) / 100 := by
    unfold pyRound2
    push_cast
    ring
  rw [heq, abs_div]
  have h100 : |(100 : ℚ)| = 100 := by norm_num
  rw [h100]
  linarith

/-- Claim C3: every record the engine emits satisfies the 80/20
cost-split identity within the 0.01 tolerance, so the cost-split
validation reports INFO, never ERROR, on engine output. -/
theorem c3_cost_split_never_error (t : Tables) (m : Nat) (y : Int) :
    (∀ r ∈ (create_consolidated_base t m y).1,
        |r.custoEmpresa + r.descontoProf - r.total| ≤ 1/100) ∧
      (validate_cost_split (create_consolidated_base t m y).1).level = VLevel.INFO := by
  have hrecs : (create_consolidated_base t m y).1
      = (apply_eligibility_rules ((enrich_base_data t).filter
          (fun r => !decide (r.matricula ∈ identify_exclusions t)))).map
          (generate_record (build_business_days t) (build_daily_values t) m y) := rfl
  have hper : ∀ r ∈ (create_consolidated_base t m y).1,
      |r.custoEmpresa + r.descontoProf - r.total| ≤ 1/100 := by
    intro r hr
    rw [hrecs] at hr
    rcases List.mem_map.mp hr with ⟨e, _, rfl⟩
    exact round_split_bound _
  refine ⟨hper, ?_⟩
  have hnil : (create_consolidated_base t m y).1.filter
      (fun r => decide ((1 : ℚ)/100 < |r.custoEmpresa + r.descontoProf - r.total|)) = [] := by
    rw [List.filter_eq_nil_iff]
    intro r hr
    simp only [decide_eq_true_eq, not_lt]
    exact hper r hr
  simp only [validate_cost_split]
  rw [hnil]
  rfl

theorem len_le_one_cases {α : Type} : ∀ {l : List α}, l.length ≤ 1 → l = [] ∨ ∃ a, l = [a]
  | [], _ => Or.inl rfl
  | [a], _ => Or.inr ⟨a, rfl⟩
  | a :: b :: tl, h => by
    exfalso
    simp [Nat.add_comm] at h

theorem filter_key_len_le_one {α : Type} (l : List (String × α)) (k : String)
    (h : (l.map Prod.fst).Nodup) :
    (l.filter (fun p => decide (p.1 = k))).length ≤ 1 := by
  induction l with
  | nil => simp
  | cons p tl ih =>
    rw [List.map_cons, List.nodup_cons] at h
    by_cases hk : p.1 = k
    · have htl : tl.filter (fun q => decide (q.1 = k)) = [] := by
        rw [List.filter_eq_nil_iff]
        intro q hq
        simp only [decide_eq_true_eq]
        intro hqk
        exact h.1 (by
          have : q.1 ∈ tl.map Prod.fst := List.mem_map_of_mem Prod.fst hq
          rwa [hqk, ← hk] at this)
      rw [List.filter_cons, if_pos (by simp [hk]), htl]
      simp
    · rw [List.filter_cons, if_neg (by simp [hk])]
      exact ih h.2

theorem merge_admissao_keys (base : List AtivoRow)
    (adm : Option (List (String × Option PyDate)))
    (h : ∀ l, adm = some l → (l.map Prod.fst).Nodup) :
    (merge_admissao base adm).map (fun q => q.1.matricula)
      = base.map AtivoRow.matricula := by
  cases adm with
  | none =>
    unfold merge_admissao
    rw [List.map_map]
    rfl
  | some l =>
    have hl := h l rfl
    induction base with
    | nil => rfl
    | cons r rs ih =>
      have hstep : merge_admissao (r :: rs) (some l)
          = (match l.filter (fun p => decide (p.1 = r.matricula)) with
             | [] => [(r, none)]
             | m :: ms => (m :: ms).map (fun p => (r, p.2)))
            ++ merge_admissao rs (some l) := rfl
      rw [hstep, List.map_append, ih, List.map_cons]
      rcases len_le_one_cases (filter_key_len_le_one l r.matricula hl) with hnil | ⟨a, ha⟩
      · simp [hnil]
      · simp [ha]

theorem enrich_base_data_keys (t : Tables)
    (h : ∀ l, t.admissao = some l → (l.map Prod.fst).Nodup) :
    (enrich_base_data t).map EmployeeRow.matricula = t.ativos.map AtivoRow.matricula := by
  unfold enrich_base_data
  rw [List.map_map]
  exact merge_admissao_keys t.ativos t.admissao h

/-- Claim C4: when the roster ids and the admission-table keys are
without duplicates (the spec notion of valid input), every
registration id of the consolidated output is unique across the
output and none belongs to the exclusion set. -/
theorem c4_unique_ids_outside_exclusions (t : Tables) (m : Nat) (y : Int)
    (h1 : (t.ativos.map AtivoRow.matricula).Nodup)
    (h2 : ∀ l, t.admissao = some l → (l.map Prod.fst).Nodup) :
    ((create_consolidated_base t m y).1.map Record.matricula).Nodup ∧
      ∀ r ∈ (create_consolidated_base t m y).1, ∀ s, r.matricula = some s →
        s ∉ identify_exclusions t := by
  have hek : (enrich_base_data t).map EmployeeRow.matricula
      = t.ativos.map AtivoRow.matricula := enrich_base_data_keys t h2
  have hen : ((enrich_base_data t).map EmployeeRow.matricula).Nodup := hek ▸ h1
  have hrecs : (create_consolidated_base t m y).1
      = (apply_eligibility_rules ((enrich_base_data t).filter
          (fun r => !decide (r.matricula ∈ identify_exclusions t)))).map
          (generate_record (build_business_days t) (build_daily_values t) m y) := rfl
  constructor
  · rw [hrecs, List.map_map]
    have hfun : (Record.matricula ∘
        generate_record (build_business_days t) (build_daily_values t) m y)
        = (some ∘ EmployeeRow.matricula) := rfl
    rw [hfun, ← List.map_map]
    have hsub : ((apply_eligibility_rules ((enrich_base_data t).filter
        (fun r => !decide (r.matricula ∈ identify_exclusions t)))).map
          EmployeeRow.matricula).Sublist
        ((enrich_base_data t).map EmployeeRow.matricula) := by
      apply List.Sublist.map
      exact List.Sublist.trans (List.filter_sublist _) (List.filter_sublist _)
    exact (List.Nodup.sublist hsub hen).map (Option.some_injective _)
  · intro r hr s hs
    rw [hrecs] at hr
    rcases List.mem_map.mp hr with ⟨e, he, rfl⟩
    have hse : s = e.matricula := by
      have hss : some e.matricula = some s := hs
      exact (Option.some.inj hss).symm
    subst hse
    have he2 := ((mem_apply_eligibility _ _).mp he).1
    have hpred := (List.mem_filter.mp he2).2
    simpa using hpred

/-- Claim C4, witness: a concrete one-row roster with no admissions
table yields a unique, non-excluded output id. -/
theorem c4_unique_ids_outside_exclusions_witness :
    ((create_consolidated_base sampleTables 5 2025).1.map Record.matricula).Nodup ∧
      ∀ r ∈ (create_consolidated_base sampleTables 5 2025).1, ∀ s,
        r.matricula = some s → s ∉ identify_exclusions sampleTables :=
  c4_unique_ids_outside_exclusions sampleTables 5 2025 (by decide)
    (fun l h => nomatch h)

theorem length_filter_split {α : Type} (p : α → Bool) (l : List α) :
    l.length = (l.filter p).length + (l.filter (fun a => !p a)).length := by
  induction l with
  | nil => rfl
  | cons a tl ih =>
    by_cases h : p a <;> simp [List.filter_cons, h, ih] <;> omega

/-- Claim C9: the excluded counter of the processing stats counts
exactly the enriched-base rows removed by the exclusion-set filter;
the rows later dropped by the dismissal eligibility rule all lie
outside the exclusion set, hence are not part of the counter. -/
theorem c9_excluded_count_scope (t : Tables) (m : Nat) (y : Int) :
    (create_consolidated_base t m y).2.excludedCount
        = (enrich_base_data t).countP
            (fun r => decide (r.matricula ∈ identify_exclusions t)) ∧
      ∀ r ∈ (enrich_base_data t).filter
          (fun r => !decide (r.matricula ∈ identify_exclusions t)),
        r.matricula ∉ identify_exclusions t := by
  constructor
  · have hv : (create_consolidated_base t m y).2.excludedCount
        = (enrich_base_data t).length - ((enrich_base_data t).filter
            (fun r => !decide (r.matricula ∈ identify_exclusions t))).length := rfl
    rw [hv, List.countP_eq_length_filter]
    have hsplit := length_filter_split
      (fun r : EmployeeRow => decide (r.matricula ∈ identify_exclusions t))
      (enrich_base_data t)
    omega
  · intro r hr
    have hpred := (List.mem_filter.mp hr).2
    simpa using hpred
